import Mathlib


/-!
Verification of the login-monitoring pipeline `monitor_logins.py`.

The development shallowly embeds the three core stages of the program:
`calculate_baseline_stats` (per-minute-of-week mean / sample standard
deviation), `detect_anomalies` (per-point classification against the
baseline), and `monitor_and_alert` (streak-debounced alert state machine).
Measurement values are modelled as rationals; the standard deviation
produced by the aggregator is a real number (a square root).  A pipeline
stage that returns `None` in Python is modelled as an `Option`-valued
function returning `none`.
-/

namespace MonitorLogins

/-- `STD_DEV_THRESHOLD = 3.0` from the source (exact as a rational). -/
def STD_DEV_THRESHOLD : ℚ := 3

/-- `CONSECUTIVE_MINUTES_THRESHOLD = 10` from the source. -/
def CONSECUTIVE_MINUTES_THRESHOLD : ℕ := 10

/-- `BASELINE_ZERO_THRESHOLD = 200` from the source. -/
def BASELINE_ZERO_THRESHOLD : ℚ := 200

/-- `STD_DEV_EPSILON = 1e-6` from the source (exact as a rational). -/
def STD_DEV_EPSILON : ℚ := 1 / 1000000

/-- A timestamp, measured in whole minutes from an epoch falling on a
Monday at 00:00 (so `dayofweek` below matches pandas' Monday-0
convention). -/
abbrev Time := ℕ

/-- pandas `index.dayofweek` (0 = Monday .. 6 = Sunday). -/
def dayofweek (t : Time) : ℕ := t / 1440 % 7

/-- pandas `index.hour`. -/
def hourOf (t : Time) : ℕ := t % 1440 / 60

/-- pandas `index.minute`. -/
def minuteOf (t : Time) : ℕ := t % 60

/-- `minute_of_week = dayofweek * 24 * 60 + hour * 60 + minute`, computed
identically in `calculate_baseline_stats` and `detect_anomalies`. -/
def minute_of_week (t : Time) : ℕ :=
  dayofweek t * 24 * 60 + hourOf t * 60 + minuteOf t

/-- One row of a prepared data frame: a timestamp and its
`measurement_value`. -/
structure TimePoint where
  time : Time
  value : ℚ
deriving DecidableEq, Repr

/-- The baseline statistics table consumed by `detect_anomalies`:
rows keyed by `minute_of_week` carrying `(mean, std)`.  As produced by
`calculate_baseline_stats` (a pandas `groupby`) the keys are unique, and
the left-merge in `detect_anomalies` is a per-key lookup. -/
abbrev StatsTable := List (ℕ × ℚ × ℚ)

/-- The merge of `detect_anomalies` (`how='left'` on `minute_of_week`)
followed by `fillna(0)` on the `mean` and `std` columns: an absent bucket
yields `(0, 0)`. -/
def bucketStats (stats : StatsTable) (k : ℕ) : ℚ × ℚ :=
  (List.lookup k stats).getD (0, 0)

/-- `merged_df['upper_bound'] = mean + STD_DEV_THRESHOLD * std`. -/
def upper_bound (m sd : ℚ) : ℚ := m + STD_DEV_THRESHOLD * sd

/-- `merged_df['lower_bound'] = np.maximum(0, mean - STD_DEV_THRESHOLD * std)`. -/
def lower_bound (m sd : ℚ) : ℚ := max 0 (m - STD_DEV_THRESHOLD * sd)

/-- `deviation_anomaly = ((value < lower_bound) | (value > upper_bound)) & (std > STD_DEV_EPSILON)`. -/
def deviation_anomaly (m sd v : ℚ) : Bool :=
  decide ((v < lower_bound m sd ∨ v > upper_bound m sd) ∧ sd > STD_DEV_EPSILON)

/-- `zero_anomaly = (value == 0) & (mean >= BASELINE_ZERO_THRESHOLD)`. -/
def zero_anomaly (m v : ℚ) : Bool :=
  decide (v = 0 ∧ m ≥ BASELINE_ZERO_THRESHOLD)

/-- The `anomaly_type` column values. -/
inductive AnomalyType where
  | Normal
  | Zero
  | Low
  | High
deriving DecidableEq, Repr

/-- The three sequential `.loc` assignments of `detect_anomalies`,
starting from the `'Normal'` default: `Zero` where `zero_anomaly`, then
`Low` where the type is still `'Normal'`, the deviation flag holds and the
value is below the lower bound, then `High` symmetrically above. -/
def anomalyTypeOf (m sd v : ℚ) : AnomalyType :=
  let t0 := AnomalyType.Normal
  let t1 := if zero_anomaly m v then AnomalyType.Zero else t0
  let t2 := if deviation_anomaly m sd v ∧ t1 = AnomalyType.Normal ∧ v < lower_bound m sd
    then AnomalyType.Low else t1
  let t3 := if deviation_anomaly m sd v ∧ t2 = AnomalyType.Normal ∧ v > upper_bound m sd
    then AnomalyType.High else t2
  t3

/-- One row of the annotated frame returned by `detect_anomalies`. -/
structure Verdict where
  time : Time
  value : ℚ
  mean : ℚ
  std : ℚ
  lower_bound : ℚ
  upper_bound : ℚ
  is_anomaly : Bool
  anomaly_type : AnomalyType
deriving DecidableEq, Repr

/-- Per-row body of `detect_anomalies`: look the bucket up in the baseline
table, compute the bounds and the two anomaly flags, and fill in every
column of the output row. -/
def classifyPoint (stats : StatsTable) (p : TimePoint) : Verdict :=
  let ms := bucketStats stats (minute_of_week p.time)
  { time := p.time
    value := p.value
    mean := ms.1
    std := ms.2
    lower_bound := lower_bound ms.1 ms.2
    upper_bound := upper_bound ms.1 ms.2
    is_anomaly := deviation_anomaly ms.1 ms.2 p.value || zero_anomaly ms.1 p.value
    anomaly_type := anomalyTypeOf ms.1 ms.2 p.value }

/-- `detect_anomalies`: returns `none` (Python `None`) when either input
is absent, otherwise classifies every measured point in order. -/
def detect_anomalies (measured : Option (List TimePoint)) (stats : Option StatsTable) :
    Option (List Verdict) :=
  match measured, stats with
  | some m, some s => some (m.map (classifyPoint s))
  | _, _ => none

/-- The values of the baseline group for bucket `k`: pandas
`groupby('minute_of_week')['measurement_value']` restricted to one key. -/
def groupValues (df : List TimePoint) (k : ℕ) : List ℚ :=
  (df.filter (fun p => minute_of_week p.time == k)).map TimePoint.value

/-- The distinct `minute_of_week` keys occurring in the baseline frame
(the group keys of the pandas `groupby`; pandas additionally sorts them,
which no lookup-level property can observe). -/
def uniqueKeys (df : List TimePoint) : List ℕ :=
  (df.map (fun p => minute_of_week p.time)).dedup

/-- pandas `agg('mean')` of a group's values. -/
def sampleMean (l : List ℚ) : ℚ := l.sum / l.length

/-- pandas `agg('std')` of a group's values (`ddof = 1`): `NaN`
(modelled as `none`) for a single-element group, otherwise the square
root of the sum of squared deviations from the mean over `n - 1`. -/
noncomputable def pandasStd (l : List ℚ) : Option ℝ :=
  if 2 ≤ l.length then
    some (Real.sqrt
      (((l.map (fun x => (x - sampleMean l) ^ 2)).sum / ((l.length : ℚ) - 1) : ℚ)))
  else none

/-- `baseline_stats['std'].fillna(0)` applied to one group's `std`. -/
noncomputable def stdFilled (l : List ℚ) : ℝ := (pandasStd l).getD 0

/-- The statistics frame built by `calculate_baseline_stats`: one row per
distinct `minute_of_week` key, carrying the group's mean and its
`fillna(0)`-patched sample standard deviation. -/
noncomputable def baselineTable (df : List TimePoint) : List (ℕ × ℚ × ℝ) :=
  (uniqueKeys df).map
    (fun k => (k, sampleMean (groupValues df k), stdFilled (groupValues df k)))

/-- `calculate_baseline_stats`: returns `none` (Python `None`) when the
input frame is absent, otherwise the per-bucket statistics table. -/
noncomputable def calculate_baseline_stats (baseline : Option (List TimePoint)) :
    Option (List (ℕ × ℚ × ℝ)) :=
  match baseline with
  | none => none
  | some df => some (baselineTable df)

/-- Modelled from the spec for comparison with the code: the arithmetic
mean of a group's values. -/
def specMean (l : List ℚ) : ℚ := l.sum / l.length

/-- Modelled from the spec for comparison with the code: the sample
standard deviation with `n - 1` denominator, collapsing to `0` for a
single-sample group. -/
noncomputable def specSampleStd (l : List ℚ) : ℝ :=
  if l.length = 1 then 0
  else Real.sqrt
    (((l.map (fun x => (x - specMean l) ^ 2)).sum / ((l.length : ℚ) - 1) : ℚ))

/-- The mutable bookkeeping of `monitor_and_alert`. -/
structure AlertState where
  alert_active : Bool
  anomaly_streak : ℕ
  normal_streak : ℕ
  alert_start_timestamp : Option Time
  initial_anomaly_type : Option AnomalyType
deriving DecidableEq, Repr

/-- The state at the top of `monitor_and_alert`. -/
def initialAlertState : AlertState :=
  { alert_active := false
    anomaly_streak := 0
    normal_streak := 0
    alert_start_timestamp := none
    initial_anomaly_type := none }

/-- The recovery assignments of both `except` blocks of
`monitor_and_alert`: force the machine Inactive and clear the stored
alert provenance (streak counters keep their already-updated values). -/
def resetState (s : AlertState) : AlertState :=
  { s with
    alert_active := false
    alert_start_timestamp := none
    initial_anomaly_type := none }

/-- The events `monitor_and_alert` reports (its `print` blocks). -/
inductive Event where
  | alertStarted (detected_at : Time) (estimated_start : Time)
      (initial_type : AnomalyType) (initial_value : ℚ)
      (current_value : ℚ) (current_mean : ℚ) (lower upper : ℚ)
  | alertResolved (detected_at : Time) (estimated_resolve : Time)
      (original_start : Option Time) (original_type : Option AnomalyType)
      (current_value : ℚ) (current_mean : ℚ)
  | alertStillActive (start : Option Time) (initial_type : Option AnomalyType)
deriving DecidableEq, Repr

/-- The kind of an event, forgetting its payload. -/
inductive EventKind where
  | started
  | resolved
  | stillActive
deriving DecidableEq, Repr

/-- The kind of an event. -/
def Event.kind : Event → EventKind
  | .alertStarted .. => .started
  | .alertResolved .. => .resolved
  | .alertStillActive .. => .stillActive

/-- pandas `index.get_loc(t)`: the integer position of `t` when `t`
occurs exactly once in the index.  When `t` occurs several times pandas
returns a slice or mask, and when it is missing it raises `KeyError`;
either way the surrounding arithmetic in `monitor_and_alert` then raises,
landing in the `except` branch — both are modelled as `none`. -/
def getLoc (index : List Time) (t : Time) : Option ℕ :=
  if index.count t = 1 then some (index.indexOf t) else none

/-- One iteration of the `for row_tuple in anomalies_df.itertuples()`
loop of `monitor_and_alert`: `vs` is the whole frame (needed for
`index.get_loc` / `iloc` backtracking), `s` the bookkeeping state, `v`
the current row.  Returns the updated state and the events reported
during the iteration. -/
def step (vs : List Verdict) (s : AlertState) (v : Verdict) : AlertState × List Event :=
  if v.is_anomaly then
    let s1 : AlertState := { s with anomaly_streak := s.anomaly_streak + 1, normal_streak := 0 }
    if CONSECUTIVE_MINUTES_THRESHOLD ≤ s1.anomaly_streak ∧ s.alert_active = false then
      match getLoc (vs.map Verdict.time) v.time with
      | some pos =>
        match vs.get? (pos - (CONSECUTIVE_MINUTES_THRESHOLD - 1)) with
        | some firstRow =>
          ({ s1 with
              alert_active := true
              alert_start_timestamp := some firstRow.time
              initial_anomaly_type := some firstRow.anomaly_type },
           [Event.alertStarted v.time firstRow.time firstRow.anomaly_type
              firstRow.value v.value v.mean v.lower_bound v.upper_bound])
        | none => (resetState s1, [])
      | none => (resetState s1, [])
    else (s1, [])
  else
    let s1 : AlertState := { s with
      normal_streak := s.normal_streak + 1
      anomaly_streak := if 0 < s.anomaly_streak then 0 else s.anomaly_streak }
    if CONSECUTIVE_MINUTES_THRESHOLD ≤ s1.normal_streak ∧ s.alert_active = true then
      match getLoc (vs.map Verdict.time) v.time with
      | some pos =>
        match vs.get? (pos - (CONSECUTIVE_MINUTES_THRESHOLD - 1)) with
        | some firstRow =>
          ({ s1 with
              alert_active := false
              alert_start_timestamp := none
              initial_anomaly_type := none },
           [Event.alertResolved v.time firstRow.time
              s.alert_start_timestamp s.initial_anomaly_type v.value v.mean])
        | none => (resetState s1, [])
      | none => (resetState s1, [])
    else (s1, [])

/-- The loop of `monitor_and_alert`, folded over the remaining rows. -/
def runAux (vs : List Verdict) (s : AlertState) : List Verdict → AlertState × List Event
  | [] => (s, [])
  | v :: rest =>
    let se := step vs s v
    let se' := runAux vs se.1 rest
    (se'.1, se.2 ++ se'.2)

/-- `monitor_and_alert`: run the state machine over the whole verdict
frame from the initial state; if the loop ends with an alert still
active, report the final still-active summary. -/
def monitor_and_alert (vs : List Verdict) : List Event :=
  let se := runAux vs initialAlertState vs
  se.2 ++
    (if se.1.alert_active then
      [Event.alertStillActive se.1.alert_start_timestamp se.1.initial_anomaly_type]
    else [])

/-- The stored-provenance invariant of C10. -/
abbrev StateInv (s : AlertState) : Prop :=
  s.alert_active = false →
    s.alert_start_timestamp = none ∧ s.initial_anomaly_type = none

/-- The alternation discipline on Started/Resolved event kinds, relative
to whether an alert is currently active: from Inactive the next
transition event must be a Started, from Active a Resolved. -/
def altFrom : Bool → List EventKind → Bool
  | _, [] => true
  | false, EventKind.started :: ks => altFrom true ks
  | true, EventKind.resolved :: ks => altFrom false ks
  | _, _ => false

/-- The Started/Resolved event kinds of a report, in order (the terminal
still-active summary is not a transition event). -/
def startResolveKinds (es : List Event) : List EventKind :=
  (es.map Event.kind).filter (fun k => !(k == EventKind.stillActive))

/-- A fixed anomalous (or normal) row used by the concrete runs below. -/
def mkVerdict (t : Time) (b : Bool) : Verdict :=
  { time := t
    value := 0
    mean := 0
    std := 0
    lower_bound := 0
    upper_bound := 0
    is_anomaly := b
    anomaly_type := if b then AnomalyType.High else AnomalyType.Normal }

/-- Ten consecutive anomalous minutes at timestamps 0..9. -/
def vs10 : List Verdict := (List.range 10).map (fun i => mkVerdict i true)

/-- Ten consecutive normal minutes at timestamps 0..9. -/
def vsN10 : List Verdict := (List.range 10).map (fun i => mkVerdict i false)

/-- Two anomalous rows sharing timestamp 0 (a duplicated index key). -/
def dupPair : List Verdict := [mkVerdict 0 true, mkVerdict 0 true]

/-- A run with one duplicated timestamp: ten anomalous minutes at 0..9,
then ten normal minutes whose last two rows both carry timestamp 18, then
ten more anomalous minutes at 19..28. -/
def dupTimeRun : List Verdict :=
  (List.range 10).map (fun i => mkVerdict i true) ++
    ((List.range 9).map (fun i => mkVerdict (10 + i) false) ++
      ([mkVerdict 18 false] ++
        (List.range 10).map (fun i => mkVerdict (19 + i) true)))

/-- C3: for every measured point, with `(mean, std)` the bucket statistics
obtained from the baseline lookup, the classifier computes
`upper_bound = mean + STD_DEV_THRESHOLD * std`,
`lower_bound = max 0 (mean - STD_DEV_THRESHOLD * std)`, and flags the
point as an anomaly exactly when the value leaves the bounds with
`std > STD_DEV_EPSILON`, or the value is `0` with
`mean ≥ BASELINE_ZERO_THRESHOLD`. -/
theorem classify_bounds_and_anomaly (stats : StatsTable) (p : TimePoint) :
    (classifyPoint stats p).upper_bound =
      (bucketStats stats (minute_of_week p.time)).1 +
        STD_DEV_THRESHOLD * (bucketStats stats (minute_of_week p.time)).2 ∧
    (classifyPoint stats p).lower_bound =
      max 0 ((bucketStats stats (minute_of_week p.time)).1 -
        STD_DEV_THRESHOLD * (bucketStats stats (minute_of_week p.time)).2) ∧
    ((classifyPoint stats p).is_anomaly = true ↔
      ((p.value < (classifyPoint stats p).lower_bound ∨
          p.value > (classifyPoint stats p).upper_bound) ∧
        (bucketStats stats (minute_of_week p.time)).2 > STD_DEV_EPSILON) ∨
      (p.value = 0 ∧
        (bucketStats stats (minute_of_week p.time)).1 ≥ BASELINE_ZERO_THRESHOLD)) :=
  by
  refine ⟨rfl, rfl, ?_⟩
  simp [classifyPoint, deviation_anomaly, zero_anomaly]

/-- C4: the `anomaly_type` of every classified point follows the priority
`Zero > Low > High > Normal`: `Zero` whenever the zero-anomaly condition
holds, otherwise `Low` for a deviation below the lower bound, otherwise
`High` for a deviation above the upper bound, otherwise `Normal`. -/
theorem anomaly_type_priority (stats : StatsTable) (p : TimePoint) :
    (classifyPoint stats p).anomaly_type =
      (let ms := bucketStats stats (minute_of_week p.time)
       if zero_anomaly ms.1 p.value then AnomalyType.Zero
       else if deviation_anomaly ms.1 ms.2 p.value ∧ p.value < lower_bound ms.1 ms.2 then
         AnomalyType.Low
       else if deviation_anomaly ms.1 ms.2 p.value ∧ p.value > upper_bound ms.1 ms.2 then
         AnomalyType.High
       else AnomalyType.Normal) :=
  by
  show anomalyTypeOf _ _ _ = _
  set ms := bucketStats stats (minute_of_week p.time) with hms
  by_cases hz : zero_anomaly ms.1 p.value
  · simp [anomalyTypeOf, hz]
  · by_cases hd : deviation_anomaly ms.1 ms.2 p.value
    · by_cases hl : p.value < lower_bound ms.1 ms.2
      · simp [anomalyTypeOf, hz, hd, hl]
      · by_cases hu : p.value > upper_bound ms.1 ms.2
        · simp [anomalyTypeOf, hz, hd, hl, hu]
        · simp [anomalyTypeOf, hz, hd, hl, hu]
    · simp [anomalyTypeOf, hz, hd]

/-- C6: a measured point whose `minute_of_week` bucket is absent from the
baseline table is classified against `(mean, std) = (0, 0)`, giving both
bounds `0`; the deviation flag is then false for every value (the
`STD_DEV_EPSILON` guard fails at `std = 0`), so the point is never typed
`Low` or `High`, and indeed is not an anomaly at all. -/
theorem absent_bucket_defaults (stats : StatsTable) (p : TimePoint)
    (habsent : List.lookup (minute_of_week p.time) stats = none) :
    bucketStats stats (minute_of_week p.time) = (0, 0) ∧
    (classifyPoint stats p).lower_bound = 0 ∧
    (classifyPoint stats p).upper_bound = 0 ∧
    deviation_anomaly 0 0 p.value = false ∧
    (classifyPoint stats p).anomaly_type ≠ AnomalyType.Low ∧
    (classifyPoint stats p).anomaly_type ≠ AnomalyType.High ∧
    (classifyPoint stats p).is_anomaly = false :=
  by
  have hb : bucketStats stats (minute_of_week p.time) = (0, 0) := by
    simp [bucketStats, habsent]
  have hdev : deviation_anomaly 0 0 p.value = false := by
    simp [deviation_anomaly, STD_DEV_EPSILON]
  have hzero : zero_anomaly 0 p.value = false := by
    simp [zero_anomaly, BASELINE_ZERO_THRESHOLD]
  refine ⟨hb, ?_, ?_, hdev, ?_, ?_, ?_⟩
  · simp [classifyPoint, hb, lower_bound]
  · simp [classifyPoint, hb, upper_bound]
  · simp [classifyPoint, hb, anomalyTypeOf, hdev, hzero]
  · simp [classifyPoint, hb, anomalyTypeOf, hdev, hzero]
  · simp [classifyPoint, hb, hdev, hzero]

/-- Witness for C6 at a concrete input: the table only knows bucket `5`,
the measured point sits in bucket `0` with a nonzero value. -/
theorem absent_bucket_defaults_witness :
    List.lookup (minute_of_week 0) ([(5, 100, 5)] : StatsTable) = none ∧
    deviation_anomaly 0 0 (7 : ℚ) = false ∧
    (classifyPoint ([(5, 100, 5)] : StatsTable) ⟨0, 7⟩).is_anomaly = false :=
  ⟨by decide,
   (absent_bucket_defaults [(5, 100, 5)] ⟨0, 7⟩ (by decide)).2.2.2.1,
   (absent_bucket_defaults [(5, 100, 5)] ⟨0, 7⟩ (by decide)).2.2.2.2.2.2⟩

theorem stdFilled_eq_specSampleStd (l : List ℚ) (hne : l ≠ []) :
    stdFilled l = specSampleStd l := by
  have hlen : 0 < l.length := List.length_pos.mpr hne
  rcases Nat.lt_or_ge l.length 2 with h2 | h2
  · have h1 : l.length = 1 := by omega
    simp [stdFilled, pandasStd, specSampleStd, h1]
  · have h1 : l.length ≠ 1 := by omega
    simp [stdFilled, pandasStd, specSampleStd, h1, h2, sampleMean, specMean]

theorem lookup_map_key {β : Type} (f : ℕ → β) (keys : List ℕ) (hnd : keys.Nodup)
    (k : ℕ) (hk : k ∈ keys) :
    List.lookup k (keys.map (fun a => (a, f a))) = some (f k) := by
  induction keys with
  | nil => simp at hk
  | cons a keys ih =>
    by_cases h : k = a
    · subst h
      simp [List.lookup]
    · have hk' : k ∈ keys := by
        rcases List.mem_cons.mp hk with h' | h'
        · exact absurd h' h
        · exact h'
      have hbeq : (k == a) = false := by simp [h]
      simp only [List.map_cons, List.lookup, hbeq]
      exact ih (List.Nodup.of_cons hnd) hk'

theorem mem_uniqueKeys_of_groupValues_ne_nil (df : List TimePoint) (k : ℕ)
    (hne : groupValues df k ≠ []) : k ∈ uniqueKeys df := by
  have : df.filter (fun p => minute_of_week p.time == k) ≠ [] := by
    intro h
    apply hne
    simp [groupValues, h]
  rcases List.exists_mem_of_ne_nil _ this with ⟨p, hp⟩
  have hpdf : p ∈ df := List.mem_of_mem_filter hp
  have hpk : minute_of_week p.time = k := by
    have := List.of_mem_filter hp
    simpa using this
  simp only [uniqueKeys, List.mem_dedup, List.mem_map]
  exact ⟨p, hpdf, hpk⟩

/-- C5: for every non-empty baseline group, the statistics table produced
by `calculate_baseline_stats` carries, at that group's key, exactly the
arithmetic mean and the sample standard deviation (with `n - 1`
denominator) demanded by the spec, the latter collapsing to `0` for a
single-sample group. -/
theorem baseline_group_mean_std (df : List TimePoint) (k : ℕ)
    (hne : groupValues df k ≠ []) :
    calculate_baseline_stats (some df) = some (baselineTable df) ∧
    List.lookup k (baselineTable df) =
      some (specMean (groupValues df k), specSampleStd (groupValues df k)) ∧
    ((groupValues df k).length = 1 → specSampleStd (groupValues df k) = 0) := by
  refine ⟨rfl, ?_, ?_⟩
  · have hnd : (uniqueKeys df).Nodup := List.nodup_dedup _
    have hk : k ∈ uniqueKeys df := mem_uniqueKeys_of_groupValues_ne_nil df k hne
    have := lookup_map_key
      (fun a => (sampleMean (groupValues df a), stdFilled (groupValues df a)))
      (uniqueKeys df) hnd k hk
    rw [baselineTable]
    rw [this]
    show some (sampleMean (groupValues df k), stdFilled (groupValues df k)) = _
    rw [stdFilled_eq_specSampleStd _ hne]
    rfl
  · intro h1
    simp [specSampleStd, h1]

/-- Witness for C5 at a concrete input: a baseline with a single point of
value `5` in bucket `0`. -/
theorem baseline_group_mean_std_witness :
    groupValues [(⟨0, 5⟩ : TimePoint)] 0 ≠ [] ∧
    (List.lookup 0 (baselineTable [(⟨0, 5⟩ : TimePoint)]) =
      some (specMean (groupValues [(⟨0, 5⟩ : TimePoint)] 0),
            specSampleStd (groupValues [(⟨0, 5⟩ : TimePoint)] 0)) ∧
     ((groupValues [(⟨0, 5⟩ : TimePoint)] 0).length = 1 →
       specSampleStd (groupValues [(⟨0, 5⟩ : TimePoint)] 0) = 0)) :=
  ⟨by decide, (baseline_group_mean_std [(⟨0, 5⟩ : TimePoint)] 0 (by decide)).2⟩

/-- C1 counterexample: empty (but present) input sequences do NOT make
the pipeline stages fail — both stages succeed and return empty frames,
not the `None` error signal. -/
theorem empty_input_not_error :
    calculate_baseline_stats (some ([] : List TimePoint)) = some [] ∧
    detect_anomalies (some ([] : List TimePoint)) (some ([] : StatsTable)) = some [] :=
  ⟨rfl, rfl⟩

/-- C1 amended: the pipeline stages fail (return `None`, the program's
`DataError` signal) exactly when an input is absent: `calculate_baseline_stats`
returns `none` iff its input frame is `none`, and `detect_anomalies`
returns `none` iff the measured frame or the statistics table is `none`;
empty sequences are processed successfully into empty outputs. -/
theorem pipeline_none_iff_absent (b m : Option (List TimePoint)) (st : Option StatsTable) :
    (calculate_baseline_stats b = none ↔ b = none) ∧
    (detect_anomalies m st = none ↔ m = none ∨ st = none) := by
  constructor
  · cases b <;> simp [calculate_baseline_stats]
  · cases m <;> cases st <;> simp [detect_anomalies]

theorem getLoc_map_time (vs : List Verdict) (hnd : (vs.map Verdict.time).Nodup)
    (i : ℕ) (hi : i < vs.length) :
    getLoc (vs.map Verdict.time) (vs.get ⟨i, hi⟩).time = some i := by
  have hi' : i < (vs.map Verdict.time).length := by simpa using hi
  have hget : (vs.map Verdict.time).get ⟨i, hi'⟩ = (vs.get ⟨i, hi⟩).time := by
    simp
  have hmem : (vs.get ⟨i, hi⟩).time ∈ vs.map Verdict.time := by
    rw [← hget]
    exact List.get_mem _ _ hi'
  have hcount := List.count_eq_one_of_mem hnd hmem
  have hidx : List.indexOf (vs.get ⟨i, hi⟩).time (vs.map Verdict.time) = i := by
    have h2 := List.get_indexOf hnd ⟨i, hi'⟩
    rw [hget] at h2
    simpa using h2
  simp only [List.get_eq_getElem] at hcount hidx
  simp [getLoc, hcount, hidx]

theorem nodup_times_of_ascending (vs : List Verdict)
    (hasc : List.Pairwise (fun a b => a < b) (vs.map Verdict.time)) :
    (vs.map Verdict.time).Nodup :=
  hasc.imp (fun h => Nat.ne_of_lt h)

/-- C7: with strictly ascending timestamps, when the machine is Inactive
and an anomalous verdict at position `i` brings the anomaly streak to the
threshold, `monitor_and_alert` transitions to Active and reports exactly
one `AlertStarted` event whose estimated start is the timestamp at
position `i - (CONSECUTIVE_MINUTES_THRESHOLD - 1)` (natural subtraction,
i.e. clamped to 0) and whose initial anomaly type is the type recorded at
that same earlier position. -/
theorem alertStarted_transition (vs : List Verdict) (i : ℕ) (hi : i < vs.length)
    (hasc : List.Pairwise (fun a b => a < b) (vs.map Verdict.time))
    (s : AlertState) (hact : s.alert_active = false)
    (hanom : (vs.get ⟨i, hi⟩).is_anomaly = true)
    (hstreak : CONSECUTIVE_MINUTES_THRESHOLD ≤ s.anomaly_streak + 1)
    (firstRow : Verdict)
    (hfr : vs.get? (i - (CONSECUTIVE_MINUTES_THRESHOLD - 1)) = some firstRow) :
    step vs s (vs.get ⟨i, hi⟩) =
      ({ alert_active := true
         anomaly_streak := s.anomaly_streak + 1
         normal_streak := 0
         alert_start_timestamp := some firstRow.time
         initial_anomaly_type := some firstRow.anomaly_type },
       [Event.alertStarted (vs.get ⟨i, hi⟩).time firstRow.time firstRow.anomaly_type
          firstRow.value (vs.get ⟨i, hi⟩).value (vs.get ⟨i, hi⟩).mean
          (vs.get ⟨i, hi⟩).lower_bound (vs.get ⟨i, hi⟩).upper_bound]) := by
  have hnd := nodup_times_of_ascending vs hasc
  have hloc := getLoc_map_time vs hnd i hi
  simp only [step, hanom, if_true, hloc, hfr]
  simp [hstreak, hact]

/-- C8: with strictly ascending timestamps, when the machine is Active
and a normal verdict at position `i` brings the normal streak to the
threshold, `monitor_and_alert` transitions to Inactive and reports exactly
one `AlertResolved` event whose estimated resolve time is the timestamp
at position `i - (CONSECUTIVE_MINUTES_THRESHOLD - 1)` (clamped to 0) and
which carries the stored `alert_start_timestamp` and
`initial_anomaly_type` of the alert being resolved; both stored fields
are cleared afterwards. -/
theorem alertResolved_transition (vs : List Verdict) (i : ℕ) (hi : i < vs.length)
    (hasc : List.Pairwise (fun a b => a < b) (vs.map Verdict.time))
    (s : AlertState) (hact : s.alert_active = true)
    (hnorm : (vs.get ⟨i, hi⟩).is_anomaly = false)
    (hstreak : CONSECUTIVE_MINUTES_THRESHOLD ≤ s.normal_streak + 1)
    (firstRow : Verdict)
    (hfr : vs.get? (i - (CONSECUTIVE_MINUTES_THRESHOLD - 1)) = some firstRow) :
    step vs s (vs.get ⟨i, hi⟩) =
      ({ alert_active := false
         anomaly_streak := 0
         normal_streak := s.normal_streak + 1
         alert_start_timestamp := none
         initial_anomaly_type := none },
       [Event.alertResolved (vs.get ⟨i, hi⟩).time firstRow.time
          s.alert_start_timestamp s.initial_anomaly_type
          (vs.get ⟨i, hi⟩).value (vs.get ⟨i, hi⟩).mean]) := by
  have hnd := nodup_times_of_ascending vs hasc
  have hloc := getLoc_map_time vs hnd i hi
  have hstreakzero : (if 0 < s.anomaly_streak then 0 else s.anomaly_streak) = 0 := by
    split
    · rfl
    · omega
  simp only [step, hnorm, hloc, hfr]
  simp [hstreak, hact, hstreakzero]

/-- C9: if the positional lookup used for streak backtracking fails while
a start or resolve transition fires, the machine does not abort: the
iteration reports no event, force-resets to Inactive with the stored
alert provenance cleared, and the loop keeps processing the remaining
verdicts from exactly that reset state. -/
theorem lookup_failure_resets (vs : List Verdict) (s : AlertState) (v : Verdict)
    (hfail : getLoc (vs.map Verdict.time) v.time = none)
    (htrig : (v.is_anomaly = true ∧ s.alert_active = false ∧
                CONSECUTIVE_MINUTES_THRESHOLD ≤ s.anomaly_streak + 1) ∨
             (v.is_anomaly = false ∧ s.alert_active = true ∧
                CONSECUTIVE_MINUTES_THRESHOLD ≤ s.normal_streak + 1)) :
    (step vs s v).1.alert_active = false ∧
    (step vs s v).1.alert_start_timestamp = none ∧
    (step vs s v).1.initial_anomaly_type = none ∧
    (step vs s v).2 = [] ∧
    ∀ rest : List Verdict,
      runAux vs s (v :: rest) =
        ((runAux vs (step vs s v).1 rest).1, (runAux vs (step vs s v).1 rest).2) := by
  have hstep : step vs s v = (resetState
      (if v.is_anomaly then
        { s with anomaly_streak := s.anomaly_streak + 1, normal_streak := 0 }
      else
        { s with
            normal_streak := s.normal_streak + 1
            anomaly_streak := if 0 < s.anomaly_streak then 0 else s.anomaly_streak }), []) := by
    rcases htrig with ⟨ha, hact, hthr⟩ | ⟨ha, hact, hthr⟩ <;>
      simp [step, ha, hact, hthr, hfail]
  refine ⟨?_, ?_, ?_, ?_, ?_⟩
  · rw [hstep]; rfl
  · rw [hstep]; rfl
  · rw [hstep]; rfl
  · rw [hstep]
  · intro rest
    simp [runAux, hstep]

/-- C10: processing any verdict — through the normal branches as well as
both error-recovery branches — preserves the invariant that an Inactive
machine stores no alert provenance: whenever `alert_active` is false,
`alert_start_timestamp` and `initial_anomaly_type` are both `none`. -/
theorem inactive_implies_cleared (vs : List Verdict) (s : AlertState) (v : Verdict)
    (h : StateInv s) : StateInv (step vs s v).1 := by
  by_cases ha : v.is_anomaly
  · by_cases hc : CONSECUTIVE_MINUTES_THRESHOLD ≤ s.anomaly_streak + 1 ∧
        s.alert_active = false
    · rcases hloc : getLoc (vs.map Verdict.time) v.time with _ | pos
      · have hstep : (step vs s v).1 =
            ⟨false, s.anomaly_streak + 1, 0, none, none⟩ := by
          simp [step, ha, hc, hloc, resetState]
        rw [hstep]
        intro _
        exact ⟨rfl, rfl⟩
      · rcases hget : vs[pos - (CONSECUTIVE_MINUTES_THRESHOLD - 1)]? with _ | fr
        · have hstep : (step vs s v).1 =
              ⟨false, s.anomaly_streak + 1, 0, none, none⟩ := by
            simp [step, ha, hc, hloc, hget, resetState]
          rw [hstep]
          intro _
          exact ⟨rfl, rfl⟩
        · have hstep : (step vs s v).1.alert_active = true := by
            simp [step, ha, hc, hloc, hget]
          intro hact
          rw [hstep] at hact
          simp at hact
    · have hstep : (step vs s v).1 =
          ⟨s.alert_active, s.anomaly_streak + 1, 0,
            s.alert_start_timestamp, s.initial_anomaly_type⟩ := by
        simp [step, ha, hc]
      rw [hstep]
      intro hact
      exact h hact
  · by_cases hc : CONSECUTIVE_MINUTES_THRESHOLD ≤ s.normal_streak + 1 ∧
        s.alert_active = true
    · rcases hloc : getLoc (vs.map Verdict.time) v.time with _ | pos
      · have hstep : (step vs s v).1 =
            ⟨false, if 0 < s.anomaly_streak then 0 else s.anomaly_streak,
              s.normal_streak + 1, none, none⟩ := by
          simp [step, ha, hc, hloc, resetState]
        rw [hstep]
        intro _
        exact ⟨rfl, rfl⟩
      · rcases hget : vs[pos - (CONSECUTIVE_MINUTES_THRESHOLD - 1)]? with _ | fr
        · have hstep : (step vs s v).1 =
              ⟨false, if 0 < s.anomaly_streak then 0 else s.anomaly_streak,
                s.normal_streak + 1, none, none⟩ := by
            simp [step, ha, hc, hloc, hget, resetState]
          rw [hstep]
          intro _
          exact ⟨rfl, rfl⟩
        · have hstep : (step vs s v).1 =
              ⟨false, if 0 < s.anomaly_streak then 0 else s.anomaly_streak,
                s.normal_streak + 1, none, none⟩ := by
            simp [step, ha, hc, hloc, hget]
          rw [hstep]
          intro _
          exact ⟨rfl, rfl⟩
    · have hstep : (step vs s v).1 =
          ⟨s.alert_active, if 0 < s.anomaly_streak then 0 else s.anomaly_streak,
            s.normal_streak + 1, s.alert_start_timestamp, s.initial_anomaly_type⟩ := by
        simp [step, ha, hc]
      rw [hstep]
      intro hact
      exact h hact

theorem getLoc_succeeds_of_mem (vs : List Verdict) (hnd : (vs.map Verdict.time).Nodup)
    (v : Verdict) (hv : v ∈ vs) :
    ∃ pos, getLoc (vs.map Verdict.time) v.time = some pos ∧ pos < vs.length := by
  have hmem : v.time ∈ vs.map Verdict.time := List.mem_map_of_mem _ hv
  have hcount := List.count_eq_one_of_mem hnd hmem
  have hlt : List.indexOf v.time (vs.map Verdict.time) < (vs.map Verdict.time).length :=
    List.indexOf_lt_length.mpr hmem
  refine ⟨List.indexOf v.time (vs.map Verdict.time), ?_, by simpa using hlt⟩
  simp [getLoc, hcount]

theorem step_guard (vs : List Verdict) (s : AlertState) (v : Verdict) (e : Event)
    (he : e ∈ (step vs s v).2) :
    (e.kind = EventKind.started → s.alert_active = false) ∧
    (e.kind = EventKind.resolved → s.alert_active = true) := by
  by_cases ha : v.is_anomaly
  · by_cases hc : CONSECUTIVE_MINUTES_THRESHOLD ≤ s.anomaly_streak + 1 ∧
        s.alert_active = false
    · rcases hloc : getLoc (vs.map Verdict.time) v.time with _ | pos
      · have h2 : (step vs s v).2 = [] := by
          simp only [step, ha, if_true, hloc]
          split <;> rfl
        rw [h2] at he
        simp at he
      · rcases hget : vs.get? (pos - (CONSECUTIVE_MINUTES_THRESHOLD - 1)) with _ | fr
        · have h2 : (step vs s v).2 = [] := by
            simp only [step, ha, if_true, hloc, hget]
            split <;> rfl
          rw [h2] at he
          simp at he
        · have h2 : (step vs s v).2 =
              [Event.alertStarted v.time fr.time fr.anomaly_type fr.value
                v.value v.mean v.lower_bound v.upper_bound] := by
            simp only [step, ha, if_true, hloc, hget]
            simp [hc.1, hc.2]
          rw [h2] at he
          simp at he
          subst he
          refine ⟨fun _ => hc.2, fun hk => ?_⟩
          simp [Event.kind] at hk
    · have h2 : (step vs s v).2 = [] := by
        simp only [step, ha, if_true]
        rw [if_neg]
        exact hc
      rw [h2] at he
      simp at he
  · by_cases hc : CONSECUTIVE_MINUTES_THRESHOLD ≤ s.normal_streak + 1 ∧
        s.alert_active = true
    · rcases hloc : getLoc (vs.map Verdict.time) v.time with _ | pos
      · have h2 : (step vs s v).2 = [] := by
          simp only [step, ha, Bool.false_eq_true, if_false, hloc]
          split <;> rfl
        rw [h2] at he
        simp at he
      · rcases hget : vs.get? (pos - (CONSECUTIVE_MINUTES_THRESHOLD - 1)) with _ | fr
        · have h2 : (step vs s v).2 = [] := by
            simp only [step, ha, Bool.false_eq_true, if_false, hloc, hget]
            split <;> rfl
          rw [h2] at he
          simp at he
        · have h2 : (step vs s v).2 =
              [Event.alertResolved v.time fr.time s.alert_start_timestamp
                s.initial_anomaly_type v.value v.mean] := by
            simp only [step, ha, Bool.false_eq_true, if_false, hloc, hget]
            simp [hc.1, hc.2]
          rw [h2] at he
          simp at he
          subst he
          refine ⟨fun hk => ?_, fun _ => hc.2⟩
          simp [Event.kind] at hk
    · have h2 : (step vs s v).2 = [] := by
        simp only [step, ha, Bool.false_eq_true, if_false]
        rw [if_neg]
        exact hc
      rw [h2] at he
      simp at he

theorem step_kinds (vs : List Verdict) (hnd : (vs.map Verdict.time).Nodup)
    (s : AlertState) (v : Verdict) (hv : v ∈ vs) :
    ((step vs s v).2 = [] ∧ (step vs s v).1.alert_active = s.alert_active) ∨
    (s.alert_active = false ∧ (step vs s v).1.alert_active = true ∧
      (step vs s v).2.map Event.kind = [EventKind.started]) ∨
    (s.alert_active = true ∧ (step vs s v).1.alert_active = false ∧
      (step vs s v).2.map Event.kind = [EventKind.resolved]) := by
  obtain ⟨pos, hloc, hpos⟩ := getLoc_succeeds_of_mem vs hnd v hv
  have hlt : pos - (CONSECUTIVE_MINUTES_THRESHOLD - 1) < vs.length :=
    Nat.lt_of_le_of_lt (Nat.sub_le _ _) hpos
  have hget : vs.get? (pos - (CONSECUTIVE_MINUTES_THRESHOLD - 1)) =
      some (vs.get ⟨pos - (CONSECUTIVE_MINUTES_THRESHOLD - 1), hlt⟩) :=
    List.get?_eq_get hlt
  by_cases ha : v.is_anomaly
  · by_cases hc : CONSECUTIVE_MINUTES_THRESHOLD ≤ s.anomaly_streak + 1 ∧
        s.alert_active = false
    · right; left
      refine ⟨hc.2, ?_, ?_⟩
      · simp only [step, ha, if_true, hloc, hget]
        simp [hc.1, hc.2]
      · simp only [step, ha, if_true, hloc, hget]
        simp [hc.1, hc.2, Event.kind]
    · left
      constructor
      · simp only [step, ha, if_true]
        rw [if_neg hc]
      · simp only [step, ha, if_true]
        rw [if_neg hc]
  · by_cases hc : CONSECUTIVE_MINUTES_THRESHOLD ≤ s.normal_streak + 1 ∧
        s.alert_active = true
    · right; right
      refine ⟨hc.2, ?_, ?_⟩
      · simp only [step, ha, Bool.false_eq_true, if_false, hloc, hget]
        simp [hc.1, hc.2]
      · simp only [step, ha, Bool.false_eq_true, if_false, hloc, hget]
        simp [hc.1, hc.2, Event.kind]
    · left
      constructor
      · simp only [step, ha, Bool.false_eq_true, if_false]
        rw [if_neg hc]
      · simp only [step, ha, Bool.false_eq_true, if_false]
        rw [if_neg hc]

theorem startResolveKinds_append (a b : List Event) :
    startResolveKinds (a ++ b) = startResolveKinds a ++ startResolveKinds b := by
  simp [startResolveKinds]

theorem runAux_altFrom (vs : List Verdict) (hnd : (vs.map Verdict.time).Nodup)
    (rest : List Verdict) :
    ∀ s : AlertState, (∀ v ∈ rest, v ∈ vs) →
      altFrom s.alert_active (startResolveKinds (runAux vs s rest).2) = true := by
  induction rest with
  | nil =>
    intro s _
    simp [runAux, startResolveKinds, altFrom]
  | cons v rest ih =>
    intro s hsub
    have hv : v ∈ vs := hsub v (List.mem_cons_self _ _)
    have hsub2 : ∀ w ∈ rest, w ∈ vs := fun w hw => hsub w (List.mem_cons_of_mem _ hw)
    have hrun : (runAux vs s (v :: rest)).2 =
        (step vs s v).2 ++ (runAux vs (step vs s v).1 rest).2 := rfl
    rw [hrun, startResolveKinds_append]
    rcases step_kinds vs hnd s v hv with ⟨he, hact⟩ | ⟨hs, hact, hks⟩ | ⟨hs, hact, hks⟩
    · rw [he]
      have h1 := ih (step vs s v).1 hsub2
      rw [hact] at h1
      simpa [startResolveKinds] using h1
    · have hsrk : startResolveKinds (step vs s v).2 = [EventKind.started] := by
        simp [startResolveKinds, hks]
      rw [hsrk, hs]
      have h1 := ih (step vs s v).1 hsub2
      rw [hact] at h1
      simpa [altFrom] using h1
    · have hsrk : startResolveKinds (step vs s v).2 = [EventKind.resolved] := by
        simp [startResolveKinds, hks]
      rw [hsrk, hs]
      have h1 := ih (step vs s v).1 hsub2
      rw [hact] at h1
      simpa [altFrom] using h1

/-- C2 amended: an `AlertStarted` event is only ever emitted from the
Inactive state and an `AlertResolved` event only from the Active state;
moreover, whenever all timestamps are distinct (so that the backtracking
lookup can never fail and swallow a resolution), the Started/Resolved
events of a whole run strictly alternate starting from Inactive. -/
theorem event_guards_and_alternation (vs : List Verdict) :
    (∀ (s : AlertState) (v : Verdict) (e : Event), e ∈ (step vs s v).2 →
      (e.kind = EventKind.started → s.alert_active = false) ∧
      (e.kind = EventKind.resolved → s.alert_active = true)) ∧
    ((vs.map Verdict.time).Nodup →
      altFrom false (startResolveKinds (monitor_and_alert vs)) = true) := by
  constructor
  · intro s v e he
    exact step_guard vs s v e he
  · intro hnd
    have h1 := runAux_altFrom vs hnd vs initialAlertState (fun _ hx => hx)
    have h2 : startResolveKinds (monitor_and_alert vs) =
        startResolveKinds (runAux vs initialAlertState vs).2 := by
      show startResolveKinds ((runAux vs initialAlertState vs).2 ++ _) = _
      rw [startResolveKinds_append]
      have h3 : startResolveKinds
          (if (runAux vs initialAlertState vs).1.alert_active then
            [Event.alertStillActive
              (runAux vs initialAlertState vs).1.alert_start_timestamp
              (runAux vs initialAlertState vs).1.initial_anomaly_type]
          else []) = [] := by
        split <;> simp [startResolveKinds, Event.kind]
      rw [h3, List.append_nil]
    rw [h2]
    simpa [initialAlertState] using h1

/-- C2 counterexample: on a verdict sequence with a duplicated timestamp
the emitted events do NOT strictly alternate: the run reports two
`AlertStarted` events with no `AlertResolved` between them, because the
resolve transition hits the failing positional lookup and its event is
swallowed by the recovery branch. -/
theorem alternation_fails_on_duplicate_times :
    startResolveKinds (monitor_and_alert dupTimeRun) =
      [EventKind.started, EventKind.started] ∧
    altFrom false (startResolveKinds (monitor_and_alert dupTimeRun)) = false :=
  ⟨rfl, rfl⟩

/-- Witness for C2 (amended) at concrete inputs: the guard instantiated
at the started event of a threshold-crossing step, and alternation over
the ten-anomaly run. -/
theorem event_guards_and_alternation_witness :
    ((Event.alertStarted 9 0 AnomalyType.High 0 0 0 0 0).kind = EventKind.started →
      (AlertState.mk false 9 0 none none).alert_active = false) ∧
    (vs10.map Verdict.time).Nodup ∧
    altFrom false (startResolveKinds (monitor_and_alert vs10)) = true :=
  ⟨((event_guards_and_alternation vs10).1 ⟨false, 9, 0, none, none⟩ (mkVerdict 9 true)
      (Event.alertStarted 9 0 AnomalyType.High 0 0 0 0 0) (by decide)).1,
   by decide,
   (event_guards_and_alternation vs10).2 (by decide)⟩

/-- Witness for C7 at a concrete run: ten anomalous minutes, the tenth
crossing the threshold from an Inactive state with streak 9. -/
theorem alertStarted_transition_witness :
    List.Pairwise (fun a b => a < b) (vs10.map Verdict.time) ∧
    step vs10 ⟨false, 9, 0, none, none⟩ (vs10.get ⟨9, by decide⟩) =
      (⟨true, 10, 0, some 0, some AnomalyType.High⟩,
       [Event.alertStarted 9 0 AnomalyType.High 0 0 0 0 0]) :=
  ⟨by decide,
   alertStarted_transition vs10 9 (by decide) (by decide)
     ⟨false, 9, 0, none, none⟩ rfl (by decide) (by decide)
     (mkVerdict 0 true) (by decide)⟩

/-- Witness for C8 at a concrete run: ten normal minutes resolving an
active alert whose stored provenance is timestamp 100 with type Zero. -/
theorem alertResolved_transition_witness :
    List.Pairwise (fun a b => a < b) (vsN10.map Verdict.time) ∧
    step vsN10 ⟨true, 0, 9, some 100, some AnomalyType.Zero⟩ (vsN10.get ⟨9, by decide⟩) =
      (⟨false, 0, 10, none, none⟩,
       [Event.alertResolved 9 0 (some 100) (some AnomalyType.Zero) 0 0]) :=
  ⟨by decide,
   alertResolved_transition vsN10 9 (by decide) (by decide)
     ⟨true, 0, 9, some 100, some AnomalyType.Zero⟩ rfl (by decide) (by decide)
     (mkVerdict 0 false) (by decide)⟩

/-- Witness for C9 at a concrete input: a start transition over a frame
with a duplicated timestamp, where the positional lookup fails. -/
theorem lookup_failure_resets_witness :
    getLoc (dupPair.map Verdict.time) (mkVerdict 0 true).time = none ∧
    ((step dupPair ⟨false, 9, 0, none, none⟩ (mkVerdict 0 true)).1.alert_active = false ∧
     (step dupPair ⟨false, 9, 0, none, none⟩ (mkVerdict 0 true)).1.alert_start_timestamp = none ∧
     (step dupPair ⟨false, 9, 0, none, none⟩ (mkVerdict 0 true)).1.initial_anomaly_type = none ∧
     (step dupPair ⟨false, 9, 0, none, none⟩ (mkVerdict 0 true)).2 = [] ∧
     ∀ rest : List Verdict,
       runAux dupPair ⟨false, 9, 0, none, none⟩ (mkVerdict 0 true :: rest) =
         ((runAux dupPair (step dupPair ⟨false, 9, 0, none, none⟩ (mkVerdict 0 true)).1 rest).1,
          (runAux dupPair (step dupPair ⟨false, 9, 0, none, none⟩ (mkVerdict 0 true)).1 rest).2)) :=
  ⟨by decide,
   lookup_failure_resets dupPair ⟨false, 9, 0, none, none⟩ (mkVerdict 0 true)
     (by decide) (Or.inl (by decide))⟩

/-- Witness for C10 at a concrete input: the invariant holds initially
and is preserved by a step. -/
theorem inactive_implies_cleared_witness :
    StateInv initialAlertState ∧
    StateInv (step [] initialAlertState (mkVerdict 0 true)).1 :=
  ⟨by decide,
   inactive_implies_cleared [] initialAlertState (mkVerdict 0 true) (by decide)⟩

end MonitorLogins

